import Mathlib

/-!
Shallow embedding of the Workflow Recording/Replay Engine, the Template
Matcher, the Application Rate Governor and the Orchestrator from
src/browser_os_contribution/linkedin_workflow_automation.py.

Modelling conventions:
- Python floats (success_rate, delay_after) are embedded as exact rationals.
- Python datetime values are embedded as Nat timestamps (seconds); the
  calendar day of a timestamp is its value divided by 86400.
- Python dicts keyed by id strings are embedded as association lists in
  insertion order; dict assignment is dictInsert below.
- The step executor (WorkflowEngine._execute_step) is the external boundary;
  it is embedded as a function from the replay's executor-call counter to an
  ExecResult, where ExecResult.exc models a raised exception and
  ExecResult.ok b models a normal boolean return.
- Fresh uuid7str identifiers are supplied explicitly as parameters.
- Logging, asyncio.sleep pacing and file persistence (save_templates,
  save_applications) have no effect on the modelled state and are omitted.
-/

/-- Status of job applications (class ApplicationStatus). -/
inductive ApplicationStatus where
  | pending
  | in_progress
  | submitted
  | rejected
  | interview
  | offer
  | withdrawn
  deriving Repr, DecidableEq

/-- Types of workflow steps (class WorkflowStepType). -/
inductive WorkflowStepType where
  | click
  | fill_form
  | select_option
  | upload_file
  | wait
  | verify
  | screening_question
  deriving Repr, DecidableEq

/-- Individual step in a workflow (dataclass WorkflowStep).
The conditions dict is embedded as an association list of strings. -/
structure WorkflowStep where
  id : String
  step_type : WorkflowStepType
  selector : String
  action : String
  value : String
  description : String
  required : Bool
  retry_count : Nat
  max_retries : Nat
  delay_after : ℚ
  conditions : List (String × String)
  deriving Repr, DecidableEq

/-- LinkedIn job posting information (dataclass JobPosting); fields not read
by the modelled code paths (requirements, salary_range, experience_level,
posted_date, easy_apply_available, application_deadline) are kept as plain
data. -/
structure JobPosting where
  id : String
  job_id : String
  title : String
  company : String
  location : String
  url : String
  description : String
  requirements : List String
  salary_range : String
  job_type : String
  experience_level : String
  posted_date : Nat
  easy_apply_available : Bool
  deriving Repr, DecidableEq

/-- Record of a job application (dataclass ApplicationRecord). -/
structure ApplicationRecord where
  id : String
  job_posting : JobPosting
  status : ApplicationStatus
  applied_date : Nat
  workflow_used : String
  screening_responses : List (String × String)
  cover_letter : String
  resume_used : String
  notes : String
  follow_up_dates : List Nat
  deriving Repr, DecidableEq

/-- Reusable workflow for similar job applications (dataclass
WorkflowTemplate). -/
structure WorkflowTemplate where
  id : String
  name : String
  description : String
  company_pattern : String
  job_type_pattern : String
  steps : List WorkflowStep
  success_rate : ℚ
  usage_count : Nat
  created_date : Nat
  last_updated : Nat
  tags : List String
  deriving Repr, DecidableEq

/-- Result of one call to the step executor: a normal boolean return, or a
raised exception. -/
inductive ExecResult where
  | ok : Bool → ExecResult
  | exc : ExecResult
  deriving Repr, DecidableEq

/-- An executor call fails when it returns False or raises. -/
def ExecResult.isFail : ExecResult → Bool
  | .ok b => !b
  | .exc => true

/-- Core loop of WorkflowEngine.replay_workflow (the for-loop over
template.steps).  calls is the number of executor invocations made so far
(it indexes exec) and success is the running success flag, initialised to
True by the caller.  Returns the final success flag together with the total
number of executor invocations.  Mirrors the source exactly: the step result
overwrites success; a failed or raising required step breaks out of the
loop; a raising non-required step leaves success unchanged. -/
def replay_steps (exec : Nat → ExecResult) :
    List WorkflowStep → Nat → Bool → Bool × Nat
  | [], calls, success => (success, calls)
  | step :: rest, calls, _success =>
    match exec calls with
    | .ok b =>
      if !b && step.required then (b, calls + 1)
      else replay_steps exec rest (calls + 1) b
    | .exc =>
      if step.required then (false, calls + 1)
      else replay_steps exec rest (calls + 1) _success

/-- Statistics update performed at the end of WorkflowEngine.replay_workflow:
usage_count is incremented, success_rate is the incremental mean over the
incremented count, last_updated is set to the current time. -/
def update_stats (t : WorkflowTemplate) (success : Bool) (now : Nat) :
    WorkflowTemplate :=
  let uc := t.usage_count + 1
  { t with
    usage_count := uc
    success_rate :=
      if success then (t.success_rate * ((uc - 1 : Nat) : ℚ) + 1) / (uc : ℚ)
      else (t.success_rate * ((uc - 1 : Nat) : ℚ)) / (uc : ℚ)
    last_updated := now }

/-- WorkflowEngine.replay_workflow over the template dict (an association
list keyed by WorkflowTemplate.id, in insertion order).  Returns the boolean
result together with the updated template collection; an unknown template_id
returns False and leaves the collection untouched. -/
def replay_workflow (templates : List WorkflowTemplate)
    (exec : Nat → ExecResult) (template_id : String) (now : Nat) :
    Bool × List WorkflowTemplate :=
  match templates.find? (fun t => t.id == template_id) with
  | none => (false, templates)
  | some template =>
    let r := replay_steps exec template.steps 0 true
    (r.1, templates.map (fun t =>
      if t.id == template_id then update_stats t r.1 now else t))

/-- Substring test on lists: pat occurs contiguously inside hay (model of
the Python `in` operator on strings). -/
def listContains [BEq α] (hay pat : List α) : Bool :=
  pat.isPrefixOf hay ||
    match hay with
    | [] => false
    | _ :: t => listContains t pat

/-- Substring test on strings: pat occurs inside hay. -/
def strContains (hay pat : String) : Bool :=
  listContains hay.toList pat.toList

/-- ASCII lower-casing (model of Python str.lower), defined over the
character list so that it evaluates by kernel reduction. -/
def strLower (s : String) : String := String.mk (s.toList.map Char.toLower)

/-- Membership test of WorkflowEngine.find_matching_templates: the
if / elif / elif chain over one template.  An empty company_pattern or
job_type_pattern is falsy in Python, so those two rules need a non-empty
pattern; the tag rule has no such guard. -/
def matches_template (t : WorkflowTemplate) (job : JobPosting) : Bool :=
  if t.company_pattern != "" &&
      strContains (strLower job.company) (strLower t.company_pattern) then true
  else if t.job_type_pattern != "" &&
      strContains (strLower job.job_type) (strLower t.job_type_pattern) then true
  else t.tags.any (fun tag => strContains (strLower job.title) (strLower tag))

/-- Comparison used to model list.sort(key=lambda t: t.success_rate,
reverse=True): a comes no later than b when its success_rate is at least
b's.  Python's sort is stable, as is mergeSort. -/
def rate_ge (a b : WorkflowTemplate) : Bool :=
  decide (b.success_rate ≤ a.success_rate)

/-- WorkflowEngine.find_matching_templates: filter by the matching rules,
then stable-sort descending by success_rate. -/
def find_matching_templates (templates : List WorkflowTemplate)
    (job : JobPosting) : List WorkflowTemplate :=
  (templates.filter (fun t => matches_template t job)).mergeSort rate_ge

/-- Matching rules in the spec's formulation, amended with the non-empty
pattern guards that the source's Python truthiness checks impose on the
company and job-type rules (the tag rule has no guard): this is the
specification-side predicate compared against matches_template. -/
def RuleFires (t : WorkflowTemplate) (job : JobPosting) : Prop :=
  (t.company_pattern ≠ "" ∧
    strContains (strLower job.company) (strLower t.company_pattern) = true) ∨
  (t.job_type_pattern ≠ "" ∧
    strContains (strLower job.job_type) (strLower t.job_type_pattern) = true) ∨
  (∃ tag ∈ t.tags, strContains (strLower job.title) (strLower tag) = true)

/-- State of class ApplicationTracker: the applications dict (in insertion
order) and the two configured daily_limits entries (the source initialises
them to 50 and 30). -/
structure ApplicationTracker where
  applications : List ApplicationRecord
  max_applications_per_day : Nat
  min_delay_between_applications : Nat
  deriving Repr, DecidableEq

/-- Calendar day of a timestamp (model of datetime.date()). -/
def dayOf (t : Nat) : Nat := t / 86400

/-- ApplicationTracker.can_apply_today: count of records applied today is
strictly below the daily limit. -/
def can_apply_today (tr : ApplicationTracker) (now : Nat) : Bool :=
  decide ((tr.applications.filter
    (fun a => dayOf a.applied_date == dayOf now)).length
      < tr.max_applications_per_day)

/-- ApplicationTracker.record_application: append a Submitted record and
return it. -/
def record_application (tr : ApplicationTracker) (job : JobPosting)
    (workflow_id app_id : String) (now : Nat) :
    ApplicationRecord × ApplicationTracker :=
  let app : ApplicationRecord :=
    { id := app_id
      job_posting := job
      status := .submitted
      applied_date := now
      workflow_used := workflow_id
      screening_responses := []
      cover_letter := ""
      resume_used := ""
      notes := ""
      follow_up_dates := [] }
  (app, { tr with applications := tr.applications ++ [app] })

/-- State of class WorkflowEngine: the templates dict, the active_workflows
dict of open recording drafts, and the recording_mode flag. -/
structure WorkflowEngine where
  templates : List WorkflowTemplate
  active_workflows : List (String × List WorkflowStep)
  recording_mode : Bool
  deriving Repr, DecidableEq

/-- Python dict assignment m[k] = v over an insertion-ordered association
list: replace in place when the key exists, append otherwise. -/
def dictInsert {α : Type} (m : List (String × α)) (k : String) (v : α) :
    List (String × α) :=
  if (m.find? (fun p => p.1 == k)).isSome then
    m.map (fun p => if p.1 == k then (k, v) else p)
  else m ++ [(k, v)]

/-- WorkflowEngine.start_recording_workflow: unconditionally open a fresh
empty draft under the supplied fresh id and set recording_mode; the source
performs no already-recording check and cannot fail. -/
def start_recording_workflow (e : WorkflowEngine) (workflow_id : String) :
    String × WorkflowEngine :=
  (workflow_id,
   { e with
     active_workflows := dictInsert e.active_workflows workflow_id []
     recording_mode := true })

/-- WorkflowEngine.record_step: append the step to the draft when the
handle is open, silently do nothing otherwise. -/
def record_step (e : WorkflowEngine) (workflow_id : String)
    (step : WorkflowStep) : WorkflowEngine :=
  if (e.active_workflows.find? (fun p => p.1 == workflow_id)).isSome then
    { e with
      active_workflows := e.active_workflows.map (fun p =>
        if p.1 == workflow_id then (p.1, p.2 ++ [step]) else p) }
  else e

/-- Python dict assignment self.templates[template.id] = template. -/
def templatesInsert (ts : List WorkflowTemplate) (t : WorkflowTemplate) :
    List WorkflowTemplate :=
  if (ts.find? (fun x => x.id == t.id)).isSome then
    ts.map (fun x => if x.id == t.id then t else x)
  else ts ++ [t]

/-- WorkflowEngine.stop_recording_workflow: none models the ValueError
raised on an unknown handle; otherwise freeze the draft into a template
with zero statistics, insert it, delete the draft and clear
recording_mode. -/
def stop_recording_workflow (e : WorkflowEngine)
    (workflow_id name description template_id : String) (now : Nat) :
    Option (WorkflowTemplate × WorkflowEngine) :=
  match e.active_workflows.find? (fun p => p.1 == workflow_id) with
  | none => none
  | some p =>
    let template : WorkflowTemplate :=
      { id := template_id
        name := name
        description := description
        company_pattern := ""
        job_type_pattern := ""
        steps := p.2
        success_rate := 0
        usage_count := 0
        created_date := now
        last_updated := now
        tags := [] }
    some (template,
      { e with
        templates := templatesInsert e.templates template
        active_workflows :=
          e.active_workflows.filter (fun q => q.1 != workflow_id)
        recording_mode := false })

/-- Combined state of class LinkedInWorkflowAutomation: its workflow engine
and its application tracker. -/
structure AutomationState where
  workflow_engine : WorkflowEngine
  application_tracker : ApplicationTracker
  deriving Repr, DecidableEq

/-- Fresh uuid7str identifiers consumed by one apply_to_job call. -/
structure IdSupply where
  workflow_id : String
  template_id : String
  step1_id : String
  step2_id : String
  step3_id : String
  app_id : String
  deriving Repr, DecidableEq

/-- Steps recorded by _manual_application_with_recording (the three
simulated WorkflowStep literals, with the dataclass defaults for the
remaining fields). -/
def manual_recording_steps (ids : IdSupply) : List WorkflowStep :=
  [ { id := ids.step1_id
      step_type := .click
      selector := ".jobs-apply-button"
      action := ""
      value := ""
      description := "Click Easy Apply button"
      required := true
      retry_count := 0
      max_retries := 3
      delay_after := 1
      conditions := [] },
    { id := ids.step2_id
      step_type := .fill_form
      selector := "#resume-upload"
      action := ""
      value := "default_resume.pdf"
      description := "Upload resume"
      required := true
      retry_count := 0
      max_retries := 3
      delay_after := 1
      conditions := [] },
    { id := ids.step3_id
      step_type := .screening_question
      selector := ""
      action := ""
      value := ""
      description := "Answer screening questions"
      required := true
      retry_count := 0
      max_retries := 3
      delay_after := 1
      conditions := [] } ]

/-- LinkedInWorkflowAutomation._manual_application_with_recording: start a
recording, record the three simulated steps, freeze the template, then
mutate the stored template's tags and patterns from the job, and return
True.  The application tracker is not touched on this path. -/
def manual_application_with_recording (st : AutomationState)
    (job : JobPosting) (ids : IdSupply) (now : Nat) :
    Option (Bool × AutomationState) :=
  let workflow_name := job.company ++ "_" ++ job.job_type ++ "_application"
  let r := start_recording_workflow st.workflow_engine ids.workflow_id
  let eng1 := (manual_recording_steps ids).foldl
    (fun e s => record_step e r.1 s) r.2
  match stop_recording_workflow eng1 r.1 workflow_name
      ("Workflow for " ++ job.company ++ " " ++ job.job_type ++ " positions")
      ids.template_id now with
  | none => none
  | some q =>
    let template2 :=
      { q.1 with
        tags := [strLower job.job_type, strLower job.company]
        company_pattern := job.company
        job_type_pattern := job.job_type }
    let eng3 :=
      { q.2 with
        templates := q.2.templates.map (fun t =>
          if t.id == q.1.id then template2 else t) }
    some (true, { st with workflow_engine := eng3 })

/-- LinkedInWorkflowAutomation.apply_to_job: match templates; with no match
take the manual recording path, otherwise replay the best match and, on
success, record the application with the tracker.  The callback fan-out has
no effect on the modelled state. -/
def apply_to_job (st : AutomationState) (job : JobPosting)
    (exec : Nat → ExecResult) (ids : IdSupply) (now : Nat) :
    Option (Bool × AutomationState) :=
  match find_matching_templates st.workflow_engine.templates job with
  | [] => manual_application_with_recording st job ids now
  | best :: _ =>
    let r := replay_workflow st.workflow_engine.templates exec best.id now
    let st1 : AutomationState :=
      { st with
        workflow_engine := { st.workflow_engine with templates := r.2 } }
    if r.1 then
      let ra := record_application st1.application_tracker job best.id
        ids.app_id now
      some (r.1, { st1 with application_tracker := ra.2 })
    else some (r.1, st1)

/-! Concrete fixtures used by witnesses and counterexamples. -/

/-- Executor that fails (returns False) on every call. -/
def alwaysFail : Nat → ExecResult := fun _ => .ok false

/-- Executor that succeeds on every call. -/
def alwaysOk : Nat → ExecResult := fun _ => .ok true

/-- Required step with the dataclass default retry budget of 3. -/
def reqStep : WorkflowStep :=
  { id := "s-req"
    step_type := .click
    selector := ".b"
    action := ""
    value := ""
    description := "required step"
    required := true
    retry_count := 0
    max_retries := 3
    delay_after := 1
    conditions := [] }

/-- Optional (required=False) step with the default retry budget. -/
def optStep : WorkflowStep := { reqStep with id := "s-opt", required := false }

/-- Template holding a single required step. -/
def tmplFail : WorkflowTemplate :=
  { id := "tfail"
    name := "fail"
    description := ""
    company_pattern := ""
    job_type_pattern := ""
    steps := [reqStep]
    success_rate := 0
    usage_count := 0
    created_date := 0
    last_updated := 0
    tags := [] }

/-- Template whose first step is required and is followed by one more
step. -/
def tmplFail2 : WorkflowTemplate :=
  { tmplFail with id := "tfail2", steps := [reqStep, optStep] }

/-- Concrete outcome sequence for the statistics witness: three completed
replays, two Succeeded. -/
def outcomesW : List (Bool × Nat) := [(true, 1), (false, 2), (true, 3)]

/-- Template whose only step is non-required. -/
def tmplOpt : WorkflowTemplate :=
  { tmplFail with id := "topt", steps := [optStep] }

/-- Template with a non-required step followed by a required step. -/
def tmplMix : WorkflowTemplate :=
  { tmplFail with id := "tmix", steps := [optStep, reqStep] }

/-- Executor that fails on its first call and succeeds afterwards. -/
def execMix : Nat → ExecResult := fun i => if i == 0 then .ok false else .ok true

/-- Generic job posting fixture. -/
def jobW : JobPosting :=
  { id := "j1"
    job_id := "100"
    title := "Senior Engineer"
    company := "Acme Corp"
    location := "Remote"
    url := ""
    description := ""
    requirements := []
    salary_range := ""
    job_type := "Full-time"
    experience_level := ""
    posted_date := 0
    easy_apply_available := true }

/-- Application record applied on day 0. -/
def recW : ApplicationRecord :=
  { id := "a1"
    job_posting := jobW
    status := .submitted
    applied_date := 10
    workflow_used := "t1"
    screening_responses := []
    cover_letter := ""
    resume_used := ""
    notes := ""
    follow_up_dates := [] }

/-- Tracker with a daily cap of 2 and one application recorded today. -/
def trW : ApplicationTracker :=
  { applications := [recW]
    max_applications_per_day := 2
    min_delay_between_applications := 30 }

/-- Engine with one open recording draft. -/
def engOpen : WorkflowEngine :=
  { templates := []
    active_workflows := [("w1", [])]
    recording_mode := true }

/-- Template with an empty step list. -/
def tmplEmpty : WorkflowTemplate :=
  { tmplFail with
    id := "tempty"
    steps := []
    usage_count := 4
    success_rate := 1/2 }

/-- Template matching on company pattern, success_rate 0. -/
def tmplAcme : WorkflowTemplate :=
  { tmplFail with id := "tacme", company_pattern := "Acme", steps := [] }

/-- Template matching on a title tag, success_rate 1. -/
def tmplSenior : WorkflowTemplate :=
  { tmplFail with
    id := "tsenior"
    steps := []
    tags := ["senior"]
    success_rate := 1 }

/-- Fresh automation state: no templates, no drafts, no applications. -/
def st0 : AutomationState :=
  { workflow_engine :=
      { templates := []
        active_workflows := []
        recording_mode := false }
    application_tracker :=
      { applications := []
        max_applications_per_day := 50
        min_delay_between_applications := 30 } }

/-- Concrete supply of fresh identifiers. -/
def ids0 : IdSupply :=
  { workflow_id := "w-1"
    template_id := "t-1"
    step1_id := "s-1"
    step2_id := "s-2"
    step3_id := "s-3"
    app_id := "a-1" }

/-- C1 counterexample: a required step with max_retries = 3 whose execution
always fails is attempted exactly once, not max_retries + 1 = 4 times. -/
theorem c1_counterexample :
    reqStep.max_retries + 1 = 4 ∧
    (replay_steps alwaysFail [reqStep] 0 true).2 = 1 := by
  decide

/-- C1 (amended): the replay loop never re-attempts a step.  The total
number of executor invocations never exceeds the number of steps, and a
single step whose execution fails is attempted exactly once, regardless of
its max_retries budget. -/
theorem c1_single_attempt_per_step :
    (∀ (exec : Nat → ExecResult) (steps : List WorkflowStep) (c : Nat)
       (s : Bool), (replay_steps exec steps c s).2 ≤ c + steps.length) ∧
    (∀ (exec : Nat → ExecResult) (step : WorkflowStep) (c : Nat) (s : Bool),
       (exec c).isFail = true → (replay_steps exec [step] c s).2 = c + 1) := by
  constructor
  · intro exec steps
    induction steps with
    | nil => intro c s; simp [replay_steps]
    | cons step rest ih =>
      intro c s
      simp only [replay_steps]
      cases h : exec c with
      | ok b =>
        by_cases hb : (!b && step.required) = true
        · simp only [hb, if_true, List.length_cons]
          omega
        · simp only [hb, if_false, Bool.false_eq_true, List.length_cons]
          have := ih (c + 1) b
          omega
      | exc =>
        by_cases hr : step.required = true
        · simp only [hr, if_true, List.length_cons]
          omega
        · simp only [hr, if_false, Bool.false_eq_true, List.length_cons]
          have := ih (c + 1) s
          omega
  · intro exec step c s hf
    simp only [replay_steps]
    cases h : exec c with
    | ok b =>
      by_cases hb : (!b && step.required) = true
      · simp [hb]
      · simp [hb, replay_steps]
    | exc =>
      by_cases hr : step.required = true
      · simp [hr]
      · simp [hr, replay_steps]

/-- C1 witness: instantiation of the amended theorem at a concrete failing
step. -/
theorem c1_single_attempt_witness :
    (replay_steps alwaysFail [optStep] 2 true).2 = 2 + 1 :=
  c1_single_attempt_per_step.2 alwaysFail optStep 2 true (by decide)

/-- Reaching a required step whose execution fails breaks the replay loop:
if every executor failure among the first pre.length steps hits a
non-required step, and the step after them is required and its execution
fails, the loop returns False having made exactly one executor call per
step up to and including the failing one. -/
theorem replay_steps_break (exec : Nat → ExecResult) :
    ∀ (pre : List WorkflowStep) (step : WorkflowStep)
      (post : List WorkflowStep) (c : Nat) (s : Bool),
      (∀ i, (h : i < pre.length) → (exec (c + i)).isFail = true →
        (pre.get ⟨i, h⟩).required = false) →
      step.required = true → (exec (c + pre.length)).isFail = true →
      replay_steps exec (pre ++ step :: post) c s = (false, c + pre.length + 1)
  | [], step, post, c, s, _hreach, hreq, hfail => by
    simp only [List.nil_append, replay_steps]
    cases h : exec c with
    | ok b =>
      have hb : b = false := by
        have h2 := hfail
        simp only [List.length_nil, Nat.add_zero, h, ExecResult.isFail] at h2
        simpa using h2
      subst hb
      simp [hreq]
    | exc => simp [hreq]
  | p :: pre, step, post, c, s, hreach, hreq, hfail => by
    simp only [List.cons_append, replay_steps]
    have hshift : ∀ i, (h : i < pre.length) →
        (exec (c + 1 + i)).isFail = true → (pre.get ⟨i, h⟩).required = false := by
      intro i h hf
      have := hreach (i + 1) (by simpa using Nat.succ_lt_succ h)
      simp only [List.get_cons_succ] at this
      exact this (by rw [show c + (i + 1) = c + 1 + i by omega]; exact hf)
    have hfail' : (exec (c + 1 + pre.length)).isFail = true := by
      rw [show c + 1 + pre.length = c + (p :: pre).length by simp; omega]
      exact hfail
    have ih := replay_steps_break exec pre step post (c + 1)
    cases h : exec c with
    | ok b =>
      by_cases hb : (!b && p.required) = true
      · exfalso
        have hbf : b = false := by
          cases b with
          | false => rfl
          | true => simp at hb
        have hpr : p.required = true := by
          cases hp : p.required with
          | false => rw [hp] at hb; simp at hb
          | true => rfl
        have : p.required = false := by
          have := hreach 0 (by simp)
          simp only [List.get_cons_zero] at this
          exact this (by rw [Nat.add_zero, h, hbf]; rfl)
        rw [hpr] at this
        exact absurd this (by simp)
      · simp only [hb, if_false, Bool.false_eq_true, List.length_cons]
        rw [show c + (pre.length + 1) + 1 = c + 1 + pre.length + 1 by omega]
        exact ih b hshift hreq hfail'
    | exc =>
      have hpr : p.required = false := by
        have := hreach 0 (by simp)
        simp only [List.get_cons_zero] at this
        exact this (by rw [Nat.add_zero, h]; rfl)
      simp only [hpr, if_false, Bool.false_eq_true, List.length_cons]
      rw [show c + (pre.length + 1) + 1 = c + 1 + pre.length + 1 by omega]
      exact ih s hshift hreq hfail'

/-- C2: when a required step's execution fails during a replay, the replay
result is Failed (False) and no step after the failing one is ever
executed: the executor is invoked exactly once per step up to and
including the failing required step, regardless of how many steps
follow. -/
theorem c2_required_failure_aborts
    (templates : List WorkflowTemplate) (t : WorkflowTemplate)
    (pre post : List WorkflowStep) (step : WorkflowStep)
    (exec : Nat → ExecResult) (template_id : String) (now : Nat)
    (hfind : templates.find? (fun x => x.id == template_id) = some t)
    (hsteps : t.steps = pre ++ step :: post)
    (hreach : ∀ i, (h : i < pre.length) → (exec i).isFail = true →
      (pre.get ⟨i, h⟩).required = false)
    (hreq : step.required = true)
    (hfail : (exec pre.length).isFail = true) :
    replay_steps exec t.steps 0 true = (false, pre.length + 1) ∧
    (replay_workflow templates exec template_id now).1 = false := by
  have hcore : replay_steps exec t.steps 0 true = (false, pre.length + 1) := by
    rw [hsteps]
    have := replay_steps_break exec pre step post 0 true
      (by intro i h hf; exact hreach i h (by simpa using hf))
      hreq (by simpa using hfail)
    simpa using this
  refine ⟨hcore, ?_⟩
  simp only [replay_workflow, hfind, hcore]

/-- C2 witness: a template whose first (required) step always fails yields
a Failed replay after exactly one executor call, although a later step
exists. -/
theorem c2_required_failure_witness :
    replay_steps alwaysFail tmplFail2.steps 0 true = (false, 0 + 1) ∧
    (replay_workflow [tmplFail2] alwaysFail "tfail2" 5).1 = false :=
  c2_required_failure_aborts [tmplFail2] tmplFail2 [] [optStep] reqStep
    alwaysFail "tfail2" 5 (by decide) (by decide)
    (fun i h _ => absurd h (Nat.not_lt_zero i)) (by decide) (by decide)

/-- C3 counterexample: a template whose only step is non-required and fails
yields a Failed replay, because the loop's success flag keeps the result of
the last executed step. -/
theorem c3_counterexample :
    tmplOpt.steps.all (fun s => !s.required) = true ∧
    (replay_workflow [tmplOpt] alwaysFail "topt" 0).1 = false := by
  decide

/-- When every executor failure hits a non-required step, the replay loop
executes every step (one executor call each) and finishes with the running
success flag of the last executed step; under the extra hypothesis that the
last step's execution returns True, the loop returns True. -/
theorem replay_steps_continue (exec : Nat → ExecResult) :
    ∀ (steps : List WorkflowStep) (c : Nat) (s : Bool),
      (∀ i, (h : i < steps.length) → (exec (c + i)).isFail = true →
        (steps.get ⟨i, h⟩).required = false) →
      (steps ≠ [] → exec (c + steps.length - 1) = .ok true) →
      replay_steps exec steps c s =
        ((if steps.isEmpty then s else true), c + steps.length)
  | [], c, s, _, _ => by simp [replay_steps]
  | p :: rest, c, s, hnr, hlast => by
    simp only [replay_steps]
    have hshift : ∀ i, (h : i < rest.length) →
        (exec (c + 1 + i)).isFail = true → (rest.get ⟨i, h⟩).required = false := by
      intro i h hf
      have := hnr (i + 1) (by simpa using Nat.succ_lt_succ h)
      simp only [List.get_cons_succ] at this
      exact this (by rw [show c + (i + 1) = c + 1 + i by omega]; exact hf)
    have hlast' : rest ≠ [] → exec (c + 1 + rest.length - 1) = .ok true := by
      intro hne
      have h2 := hlast (by simp)
      rw [show c + (p :: rest).length - 1 = c + 1 + rest.length - 1 by
        simp only [List.length_cons]; omega] at h2
      exact h2
    cases h : exec c with
    | ok b =>
      cases hb : b with
      | true =>
        simp only [Bool.not_true, Bool.false_and, if_false, Bool.false_eq_true]
        have ih := replay_steps_continue exec rest (c + 1) true hshift hlast'
        rw [ih]
        simp only [List.isEmpty_cons, List.length_cons, Prod.mk.injEq]
        exact ⟨by cases rest <;> simp, by omega⟩
      | false =>
        have hpr : p.required = false := by
          have := hnr 0 (by simp)
          simp only [List.get_cons_zero] at this
          exact this (by rw [Nat.add_zero, h, hb]; rfl)
        have hrne : rest ≠ [] := by
          intro he
          subst he
          have h2 := hlast (by simp)
          simp only [List.length_cons, List.length_nil] at h2
          rw [show c + (0 + 1) - 1 = c by omega, h, hb] at h2
          exact absurd h2 (by simp)
        simp only [hpr, Bool.and_false, if_false, Bool.false_eq_true]
        have ih := replay_steps_continue exec rest (c + 1) false hshift hlast'
        rw [ih]
        have hie : rest.isEmpty = false := by
          cases rest with
          | nil => exact absurd rfl hrne
          | cons a t => rfl
        simp only [hie, List.isEmpty_cons, List.length_cons, Prod.mk.injEq,
          if_false, Bool.false_eq_true]
        exact ⟨trivial, by omega⟩
    | exc =>
      have hpr : p.required = false := by
        have := hnr 0 (by simp)
        simp only [List.get_cons_zero] at this
        exact this (by rw [Nat.add_zero, h]; rfl)
      have hrne : rest ≠ [] := by
        intro he
        subst he
        have h2 := hlast (by simp)
        simp only [List.length_cons, List.length_nil] at h2
        rw [show c + (0 + 1) - 1 = c by omega, h] at h2
        exact absurd h2 (by simp)
      simp only [hpr, if_false, Bool.false_eq_true]
      have ih := replay_steps_continue exec rest (c + 1) s hshift hlast'
      rw [ih]
      have hie : rest.isEmpty = false := by
        cases rest with
        | nil => exact absurd rfl hrne
        | cons a t => rfl
      simp only [hie, List.isEmpty_cons, List.length_cons, Prod.mk.injEq,
        if_false, Bool.false_eq_true]
      exact ⟨trivial, by omega⟩

/-- C3 (amended): a replay in which every executor failure hits a
non-required step still invokes every step (one executor call each), and
its result is Succeeded provided the last step's execution succeeds; as
c3_counterexample shows, a non-required failure at the final step instead
makes the result Failed, because the loop returns the last executed step's
outcome. -/
theorem c3_nonrequired_failures_continue
    (templates : List WorkflowTemplate) (t : WorkflowTemplate)
    (exec : Nat → ExecResult) (template_id : String) (now : Nat)
    (hfind : templates.find? (fun x => x.id == template_id) = some t)
    (hnr : ∀ i, (h : i < t.steps.length) → (exec i).isFail = true →
      (t.steps.get ⟨i, h⟩).required = false)
    (hlast : t.steps ≠ [] → exec (t.steps.length - 1) = .ok true) :
    replay_steps exec t.steps 0 true = (true, t.steps.length) ∧
    (replay_workflow templates exec template_id now).1 = true := by
  have hcore : replay_steps exec t.steps 0 true = (true, t.steps.length) := by
    have h2 := replay_steps_continue exec t.steps 0 true
      (by intro i h hf; exact hnr i h (by simpa using hf))
      (by intro hne; simpa using hlast hne)
    rw [h2]
    simp
  refine ⟨hcore, ?_⟩
  simp only [replay_workflow, hfind, hcore]

/-- C3 witness: a template whose non-required first step fails and whose
required second step succeeds replays all steps and yields Succeeded. -/
theorem c3_nonrequired_failures_witness :
    replay_steps execMix tmplMix.steps 0 true = (true, tmplMix.steps.length) ∧
    (replay_workflow [tmplMix] execMix "tmix" 3).1 = true :=
  c3_nonrequired_failures_continue [tmplMix] tmplMix execMix "tmix" 3
    (by decide) (by decide) (by decide)

/-- Multiplying the updated success_rate by the incremented usage count
recovers the running sum: the incremental-mean update is exact over the
rationals. -/
theorem update_stats_rate_mul (t : WorkflowTemplate) (b : Bool) (n : Nat) :
    (update_stats t b n).success_rate * ((t.usage_count : ℚ) + 1) =
      t.success_rate * (t.usage_count : ℚ) + (if b then 1 else 0) := by
  have hne : ((t.usage_count : ℚ) + 1) ≠ 0 := by positivity
  cases b with
  | true =>
    show ((t.success_rate * ((t.usage_count + 1 - 1 : Nat) : ℚ) + 1)
        / ((t.usage_count + 1 : Nat) : ℚ)) * ((t.usage_count : ℚ) + 1)
      = t.success_rate * (t.usage_count : ℚ) + 1
    rw [Nat.add_sub_cancel]
    push_cast
    rw [div_mul_cancel₀ _ hne]
  | false =>
    show ((t.success_rate * ((t.usage_count + 1 - 1 : Nat) : ℚ))
        / ((t.usage_count + 1 : Nat) : ℚ)) * ((t.usage_count : ℚ) + 1)
      = t.success_rate * (t.usage_count : ℚ) + 0
    rw [Nat.add_sub_cancel, add_zero]
    push_cast
    rw [div_mul_cancel₀ _ hne]

/-- Folding completed-replay statistics updates over a template adds the
number of outcomes to usage_count and the number of successful outcomes to
the running sum success_rate * usage_count. -/
theorem foldl_update_stats :
    ∀ (outcomes : List (Bool × Nat)) (t : WorkflowTemplate),
      ((outcomes.foldl (fun u ob => update_stats u ob.1 ob.2) t).usage_count
        = t.usage_count + outcomes.length) ∧
      ((outcomes.foldl (fun u ob => update_stats u ob.1 ob.2) t).success_rate
          * ((t.usage_count : ℚ) + (outcomes.length : ℚ))
        = t.success_rate * (t.usage_count : ℚ)
          + (outcomes.countP (fun ob => ob.1) : ℚ))
  | [], t => by simp
  | ob :: rest, t => by
    simp only [List.foldl_cons, List.length_cons, List.countP_cons]
    have h1 := foldl_update_stats rest (update_stats t ob.1 ob.2)
    have hu : (update_stats t ob.1 ob.2).usage_count = t.usage_count + 1 := rfl
    have hr := update_stats_rate_mul t ob.1 ob.2
    constructor
    · rw [h1.1, hu]
      omega
    · have h2 := h1.2
      rw [hu] at h2
      push_cast at h2 ⊢
      rw [show (t.usage_count : ℚ) + ((rest.length : ℚ) + 1)
          = (t.usage_count : ℚ) + 1 + (rest.length : ℚ) by ring]
      rw [h2, hr]
      cases hob : ob.1
      · simp [hob]
      · simp [hob]
        ring

/-- C4: a template starting from usageCount = 0 and successRate = 0 that
undergoes N completed replays of which S end Succeeded finishes with
usageCount = N and successRate = S / N exactly (over the exact rational
embedding of the statistics), because each completion applies the
incremental-mean update of update_stats. -/
theorem c4_running_average (outcomes : List (Bool × Nat))
    (t0 : WorkflowTemplate) (h1 : t0.usage_count = 0)
    (h2 : t0.success_rate = 0) :
    (outcomes.foldl (fun u ob => update_stats u ob.1 ob.2) t0).usage_count
      = outcomes.length ∧
    (outcomes.foldl (fun u ob => update_stats u ob.1 ob.2) t0).success_rate
      = (outcomes.countP (fun ob => ob.1) : ℚ) / (outcomes.length : ℚ) := by
  have hinv := foldl_update_stats outcomes t0
  constructor
  · rw [hinv.1, h1, Nat.zero_add]
  · have hr := hinv.2
    rw [h1, h2] at hr
    simp only [Nat.cast_zero, zero_add, zero_mul] at hr
    by_cases hl : outcomes.length = 0
    · have hnil : outcomes = [] := List.length_eq_zero.mp hl
      subst hnil
      simp [h2]
    · have hlen : ((outcomes.length : ℚ)) ≠ 0 := Nat.cast_ne_zero.mpr hl
      rw [eq_div_iff hlen]
      exact hr

/-- C4 witness: three completed replays with two successes give
usageCount 3 and successRate 2/3 from a fresh template. -/
theorem c4_running_average_witness :
    (outcomesW.foldl (fun u ob => update_stats u ob.1 ob.2) tmplFail).usage_count
      = outcomesW.length ∧
    (outcomesW.foldl (fun u ob => update_stats u ob.1 ob.2) tmplFail).success_rate
      = (outcomesW.countP (fun ob => ob.1) : ℚ) / (outcomesW.length : ℚ) :=
  c4_running_average outcomesW tmplFail rfl rfl

/-- C7: can_apply_today is True exactly when the number of application
records whose timestamp falls on the current calendar day is strictly
below the daily cap; at cap - 1 such records it is True, at cap it is
False. -/
theorem c7_daily_cap (tr : ApplicationTracker) (now : Nat) :
    (can_apply_today tr now = true ↔
      (tr.applications.filter
        (fun a => dayOf a.applied_date == dayOf now)).length
        < tr.max_applications_per_day) ∧
    (0 < tr.max_applications_per_day →
      (tr.applications.filter
        (fun a => dayOf a.applied_date == dayOf now)).length
        = tr.max_applications_per_day - 1 →
      can_apply_today tr now = true) ∧
    ((tr.applications.filter
        (fun a => dayOf a.applied_date == dayOf now)).length
        = tr.max_applications_per_day →
      can_apply_today tr now = false) := by
  simp only [can_apply_today, decide_eq_true_eq, decide_eq_false_iff_not]
  exact ⟨trivial, fun hpos hcnt => by omega, fun hcnt => by omega⟩

/-- C7 witness: with a cap of 2 and one record from today, a new run is
allowed. -/
theorem c7_daily_cap_witness : can_apply_today trW 20 = true :=
  (c7_daily_cap trW 20).2.1 (by decide) (by decide)

/-- C8 counterexample: with one draft recording already open,
start_recording_workflow does not fail; it returns a fresh handle and
allocates a second draft. -/
theorem c8_counterexample :
    engOpen.active_workflows.length = 1 ∧
    (start_recording_workflow engOpen "w2").2.active_workflows.length = 2 ∧
    (start_recording_workflow engOpen "w2").1 = "w2" := by
  decide

/-- C8 (amended): start_recording_workflow performs no already-recording
check and cannot fail: for any engine state, opening a recording under a
fresh handle appends a new empty draft (even when other drafts are open)
and sets recording_mode. -/
theorem c8_no_already_recording_guard (e : WorkflowEngine) (wid : String)
    (hfresh : e.active_workflows.find? (fun p => p.1 == wid) = none) :
    (start_recording_workflow e wid).1 = wid ∧
    (start_recording_workflow e wid).2.active_workflows
      = e.active_workflows ++ [(wid, [])] ∧
    (start_recording_workflow e wid).2.recording_mode = true := by
  refine ⟨rfl, ?_, rfl⟩
  simp only [start_recording_workflow, dictInsert, hfresh, Option.isSome_none,
    Bool.false_eq_true, if_false]

/-- C8 witness: the amended theorem applied to an engine that already has
an open draft. -/
theorem c8_no_guard_witness :
    (start_recording_workflow engOpen "w2").1 = "w2" ∧
    (start_recording_workflow engOpen "w2").2.active_workflows
      = engOpen.active_workflows ++ [("w2", [])] ∧
    (start_recording_workflow engOpen "w2").2.recording_mode = true :=
  c8_no_already_recording_guard engOpen "w2" (by decide)

/-- C9 counterexample: replaying an unknown template identifier returns the
very same observable result (False) as an ordinary failed replay of an
existing template, so the two are not distinguishable at the replay
interface. -/
theorem c9_counterexample :
    (replay_workflow [tmplFail] alwaysFail "missing" 0).1
      = (replay_workflow [tmplFail] alwaysFail "tfail" 0).1 := by
  decide

/-- C9 (amended): replay against an unknown template identifier fails by
returning False and has no side effects: the template collection is
returned unchanged (so no usageCount, successRate or lastUpdated of any
template changes and nothing new is persisted); the failure is however not
distinguishable from an ordinary Failed replay, which also returns
False. -/
theorem c9_unknown_template_no_side_effects
    (templates : List WorkflowTemplate) (exec : Nat → ExecResult)
    (template_id : String) (now : Nat)
    (h : templates.find? (fun t => t.id == template_id) = none) :
    replay_workflow templates exec template_id now = (false, templates) := by
  simp only [replay_workflow, h]

/-- C9 witness: replaying a missing identifier against a one-template store
leaves the store unchanged and returns False. -/
theorem c9_unknown_template_witness :
    replay_workflow [tmplFail] alwaysOk "missing" 7 = (false, [tmplFail]) :=
  c9_unknown_template_no_side_effects [tmplFail] alwaysOk "missing" 7
    (by decide)

/-- C10: replaying an existing template with an empty step list returns
Succeeded, increments the template's usage_count by 1 and applies the
success-rate update for a successful outcome. -/
theorem c10_empty_template_succeeds
    (templates : List WorkflowTemplate) (t : WorkflowTemplate)
    (exec : Nat → ExecResult) (template_id : String) (now : Nat)
    (hfind : templates.find? (fun x => x.id == template_id) = some t)
    (hsteps : t.steps = []) :
    (replay_workflow templates exec template_id now).1 = true ∧
    (replay_workflow templates exec template_id now).2
      = templates.map (fun x =>
          if x.id == template_id then update_stats x true now else x) ∧
    (update_stats t true now).usage_count = t.usage_count + 1 ∧
    (update_stats t true now).success_rate
      = (t.success_rate * (t.usage_count : ℚ) + 1)
        / ((t.usage_count : ℚ) + 1) := by
  have hrun : replay_steps exec t.steps 0 true = (true, 0) := by
    rw [hsteps]
    rfl
  refine ⟨?_, ?_, rfl, ?_⟩
  · simp only [replay_workflow, hfind, hrun]
  · simp only [replay_workflow, hfind, hrun]
  · show (t.success_rate * ((t.usage_count + 1 - 1 : Nat) : ℚ) + 1)
        / ((t.usage_count + 1 : Nat) : ℚ) = _
    rw [Nat.add_sub_cancel]
    push_cast
    rfl

/-- C10 witness: an empty-step template with usage_count 4 and
success_rate 1/2 replays to Succeeded and its statistics update to 5 and
(1/2 * 4 + 1) / 5. -/
theorem c10_empty_template_witness :
    (replay_workflow [tmplEmpty] alwaysFail "tempty" 9).1 = true ∧
    (replay_workflow [tmplEmpty] alwaysFail "tempty" 9).2
      = [tmplEmpty].map (fun x =>
          if x.id == "tempty" then update_stats x true 9 else x) ∧
    (update_stats tmplEmpty true 9).usage_count = tmplEmpty.usage_count + 1 ∧
    (update_stats tmplEmpty true 9).success_rate
      = (tmplEmpty.success_rate * (tmplEmpty.usage_count : ℚ) + 1)
        / ((tmplEmpty.usage_count : ℚ) + 1) :=
  c10_empty_template_succeeds [tmplEmpty] tmplEmpty alwaysFail "tempty" 9
    (by rfl) (by rfl)

/-- Membership in the matcher's filter agrees with the guarded rule
disjunction: the if / elif / elif chain fires exactly when one of the three
rules (with the truthiness guards) fires. -/
theorem matches_template_iff (t : WorkflowTemplate) (job : JobPosting) :
    matches_template t job = true ↔ RuleFires t job := by
  simp only [matches_template, RuleFires, List.any_eq_true]
  by_cases h1 : (t.company_pattern != "" &&
      strContains (strLower job.company) (strLower t.company_pattern)) = true
  · rw [if_pos h1]
    simp only [Bool.and_eq_true, bne_iff_ne] at h1
    simp [h1.1, h1.2]
  · rw [if_neg h1]
    by_cases h2 : (t.job_type_pattern != "" &&
        strContains (strLower job.job_type) (strLower t.job_type_pattern)) = true
    · rw [if_pos h2]
      simp only [Bool.and_eq_true, bne_iff_ne] at h2
      simp [h2.1, h2.2]
    · rw [if_neg h2]
      simp only [Bool.and_eq_true, bne_iff_ne, not_and_or, not_ne_iff] at h1 h2
      constructor
      · exact fun h => Or.inr (Or.inr (List.any_eq_true.mp h))
      · rintro (⟨hne, hsub⟩ | ⟨hne, hsub⟩ | h)
        · rcases h1 with h1 | h1
          · exact absurd h1 hne
          · exact absurd hsub h1
        · rcases h2 with h2 | h2
          · exact absurd h2 hne
          · exact absurd hsub h2
        · exact List.any_eq_true.mpr h

/-- C6 counterexample: a template with an empty company pattern does not
match, although the empty pattern is a (trivial) case-insensitive substring
of the case's organization — the source's truthiness guard suppresses the
rule, so the claim's unguarded membership condition fails. -/
theorem c6_counterexample :
    strContains (strLower jobW.company) (strLower tmplFail.company_pattern)
      = true ∧
    find_matching_templates [tmplFail] jobW = [] := by
  constructor
  · decide
  · have h : [tmplFail].filter (fun t => matches_template t jobW) = [] := by
      decide
    show ([tmplFail].filter
      (fun t => matches_template t jobW)).mergeSort rate_ge = []
    rw [h]
    exact List.mergeSort_nil

/-- C6 (amended): the matcher's result contains a template iff it is stored
and one of the three rules fires, where the company and job-type rules
additionally require a non-empty pattern (matching the source's truthiness
guards); the result is pairwise descending in success_rate, and templates
with equal success_rate keep their encounter order (stability of the
sort).  The matcher is a pure function of the store. -/
theorem c6_matcher_spec (templates : List WorkflowTemplate)
    (job : JobPosting) :
    (∀ t, t ∈ find_matching_templates templates job ↔
      t ∈ templates ∧ RuleFires t job) ∧
    (find_matching_templates templates job).Pairwise
      (fun a b => b.success_rate ≤ a.success_rate) ∧
    (∀ a b, a.success_rate = b.success_rate →
      [a, b].Sublist (templates.filter (fun t => matches_template t job)) →
      [a, b].Sublist (find_matching_templates templates job)) := by
  have htrans : ∀ a b c : WorkflowTemplate,
      rate_ge a b → rate_ge b c → rate_ge a c := by
    intro a b c hab hbc
    simp only [rate_ge, decide_eq_true_eq] at *
    exact le_trans hbc hab
  have htotal : ∀ a b : WorkflowTemplate, rate_ge a b || rate_ge b a := by
    intro a b
    simp only [rate_ge]
    rcases le_total a.success_rate b.success_rate with h | h
    · simp [h]
    · simp [h]
  refine ⟨?_, ?_, ?_⟩
  · intro t
    simp only [find_matching_templates, List.mem_mergeSort, List.mem_filter,
      matches_template_iff]
  · have hs := List.sorted_mergeSort htrans htotal
      (templates.filter (fun t => matches_template t job))
    exact hs.imp (fun h => of_decide_eq_true h)
  · intro a b hrate hsub
    exact List.sublist_mergeSort htrans htotal
      (by simp [List.pairwise_cons, rate_ge, hrate]) hsub

/-- C6 witness: with the spec's example shapes (a company-pattern template
and a title-tag template), the company-pattern template is a member of the
matcher's result for an Acme Corp / Senior Engineer case. -/
theorem c6_matcher_witness :
    tmplAcme ∈ find_matching_templates [tmplAcme, tmplSenior] jobW :=
  ((c6_matcher_spec [tmplAcme, tmplSenior] jobW).1 tmplAcme).mpr
    ⟨by simp, Or.inl ⟨by decide, by decide⟩⟩

/-- Matching over an empty filter result is empty. -/
theorem find_matching_templates_eq_nil (templates : List WorkflowTemplate)
    (job : JobPosting)
    (h : templates.filter (fun t => matches_template t job) = []) :
    find_matching_templates templates job = [] := by
  unfold find_matching_templates
  rw [h]
  exact List.mergeSort_nil

/-- Looking up a key appended behind entries with other keys finds the
appended entry. -/
theorem find?_key_append {m : List (String × List WorkflowStep)}
    {wid : String} (hm : ∀ p ∈ m, (p.1 == wid) = false) :
    ∀ xs : List WorkflowStep,
      (m ++ [(wid, xs)]).find? (fun p => p.1 == wid) = some (wid, xs) := by
  induction m with
  | nil =>
    intro xs
    simp [List.find?]
  | cons p m ih =>
    intro xs
    have hp := hm p (by simp)
    rw [List.cons_append, List.find?_cons_of_neg _ (by simp [hp])]
    exact ih (fun q hq => hm q (by simp [hq])) xs

/-- Appending a step under a key held only by the appended entry rewrites
just that entry. -/
theorem map_key_append {m : List (String × List WorkflowStep)} {wid : String}
    (hm : ∀ p ∈ m, (p.1 == wid) = false) :
    ∀ (xs : List WorkflowStep) (s : WorkflowStep),
      (m ++ [(wid, xs)]).map
        (fun p => if p.1 == wid then (p.1, p.2 ++ [s]) else p)
      = m ++ [(wid, xs ++ [s])] := by
  induction m with
  | nil =>
    intro xs s
    simp
  | cons p m ih =>
    intro xs s
    have hp := hm p (by simp)
    simp only [List.cons_append, List.map_cons, hp, Bool.false_eq_true,
      if_false]
    rw [ih (fun q hq => hm q (by simp [hq])) xs s]

/-- Deleting a key held only by the appended entry restores the original
list. -/
theorem filter_key_append {m : List (String × List WorkflowStep)}
    {wid : String} (hm : ∀ p ∈ m, (p.1 == wid) = false) :
    ∀ xs : List WorkflowStep,
      (m ++ [(wid, xs)]).filter (fun q => q.1 != wid) = m := by
  induction m with
  | nil =>
    intro xs
    simp
  | cons p m ih =>
    intro xs
    have hp := hm p (by simp)
    have hne : (p.1 != wid) = true := by simp [bne, hp]
    simp only [List.cons_append, List.filter_cons, hne, if_true]
    rw [ih (fun q hq => hm q (by simp [hq])) xs]

/-- Replacing by an id held only by the appended template rewrites just the
appended template. -/
theorem map_tid_append {ts : List WorkflowTemplate} {tid : String}
    (ht : ∀ t ∈ ts, (t.id == tid) = false) :
    ∀ (tmpl t2 : WorkflowTemplate), (tmpl.id == tid) = true →
      (ts ++ [tmpl]).map (fun t => if t.id == tid then t2 else t)
        = ts ++ [t2] := by
  induction ts with
  | nil =>
    intro tmpl t2 hid
    simp only [List.nil_append, List.map_cons, List.map_nil, hid, if_true]
  | cons t ts ih =>
    intro tmpl t2 hid
    have hp := ht t (by simp)
    simp only [List.cons_append, List.map_cons, hp, Bool.false_eq_true,
      if_false]
    rw [ih (fun q hq => ht q (by simp [hq])) tmpl t2 hid]

/-- C5 counterexample: with no matching template, apply_to_job takes the
recording path and reports success, yet the application tracker still holds
zero records afterwards — the manual run is not recorded as an outcome with
the Rate Governor. -/
theorem c5_counterexample :
    (apply_to_job st0 jobW alwaysOk ids0 0).map
      (fun p => (p.1, p.2.application_tracker.applications.length))
      = some (true, 0) := by
  have h : find_matching_templates st0.workflow_engine.templates jobW = [] :=
    find_matching_templates_eq_nil _ _ rfl
  simp only [apply_to_job, h]
  rfl

/-- C5 (amended): for a case with no matching template, apply_to_job takes
the recording path — it opens a recording, records the simulated steps,
freezes them into a new template whose tags and patterns are derived from
the case — and returns success, but it does not record any outcome with the
Rate Governor: the application tracker is left exactly as it was. -/
theorem c5_recording_path_no_outcome
    (st : AutomationState) (job : JobPosting) (exec : Nat → ExecResult)
    (ids : IdSupply) (now : Nat)
    (hmatch : find_matching_templates st.workflow_engine.templates job = [])
    (hwid : st.workflow_engine.active_workflows.find?
      (fun p => p.1 == ids.workflow_id) = none)
    (htid : st.workflow_engine.templates.find?
      (fun t => t.id == ids.template_id) = none) :
    ∃ tnew,
      apply_to_job st job exec ids now = some (true,
        { workflow_engine :=
            { templates := st.workflow_engine.templates ++ [tnew]
              active_workflows := st.workflow_engine.active_workflows
              recording_mode := false }
          application_tracker := st.application_tracker }) ∧
      tnew.tags = [strLower job.job_type, strLower job.company] ∧
      tnew.company_pattern = job.company ∧
      tnew.job_type_pattern = job.job_type ∧
      tnew.steps = manual_recording_steps ids ∧
      tnew.usage_count = 0 ∧ tnew.success_rate = 0 := by
  have hm : ∀ p ∈ st.workflow_engine.active_workflows,
      (p.1 == ids.workflow_id) = false := by
    intro p hp
    simpa using List.find?_eq_none.mp hwid p hp
  have ht : ∀ t ∈ st.workflow_engine.templates,
      (t.id == ids.template_id) = false := by
    intro t htm
    simpa using List.find?_eq_none.mp htid t htm
  refine ⟨{ id := ids.template_id
            name := job.company ++ "_" ++ job.job_type ++ "_application"
            description := "Workflow for " ++ job.company ++ " "
              ++ job.job_type ++ " positions"
            company_pattern := job.company
            job_type_pattern := job.job_type
            steps := manual_recording_steps ids
            success_rate := 0
            usage_count := 0
            created_date := now
            last_updated := now
            tags := [strLower job.job_type, strLower job.company] },
    ?_, rfl, rfl, rfl, rfl, rfl, rfl⟩
  simp only [apply_to_job, hmatch]
  simp only [manual_application_with_recording, start_recording_workflow,
    dictInsert, hwid, Option.isSome_none, Bool.false_eq_true, if_false,
    manual_recording_steps, List.foldl_cons, List.foldl_nil, record_step,
    find?_key_append hm, Option.isSome_some, if_true, beq_self_eq_true,
    map_key_append hm, stop_recording_workflow, templatesInsert, htid,
    filter_key_append hm, map_tid_append ht]
  rfl

/-- C5 witness: the amended theorem applied to a fresh state and a concrete
case. -/
theorem c5_recording_path_witness :
    ∃ tnew,
      apply_to_job st0 jobW alwaysOk ids0 4 = some (true,
        { workflow_engine :=
            { templates := st0.workflow_engine.templates ++ [tnew]
              active_workflows := st0.workflow_engine.active_workflows
              recording_mode := false }
          application_tracker := st0.application_tracker }) ∧
      tnew.tags = [strLower jobW.job_type, strLower jobW.company] ∧
      tnew.company_pattern = jobW.company ∧
      tnew.job_type_pattern = jobW.job_type ∧
      tnew.steps = manual_recording_steps ids0 ∧
      tnew.usage_count = 0 ∧ tnew.success_rate = 0 :=
  c5_recording_path_no_outcome st0 jobW alwaysOk ids0 4
    (find_matching_templates_eq_nil _ _ rfl) rfl rfl
